import Mathlib

/-!
Shallow embedding of the `LpWatermark` React component
(`src/distance-test/src/App.tsx`, lines 38-241): watermark options with
deep-merged defaults, canvas tile rendering (`getCanvasData` with its inner
`configCanvas`, `drawText`, `drawImage`), overlay construction and the
mutation-observer driven self-healing loop (`drawWatermark`).

JS numbers are modelled as `ℚ`; the ambient browser facilities the code
consumes (`Math.sin`/`Math.cos`/`Math.PI`, `parseFloat`,
`ctx.measureText`, `window.devicePixelRatio`, image loading,
`canvas.toDataURL`) are fields of an explicit environment `Env`, so every
definition is a pure function of the options and the environment.
-/

namespace LpWatermark

/-- A JS `number | string` union value (used by `fontSize` / `fontWeight`). -/
inductive StrNum where
  | num (q : ℚ)
  | str (s : String)
deriving DecidableEq

/-- The `textStyle` sub-object of `LpWatermarkProps`: every field optional. -/
structure TextStyleProps where
  color : Option String := none
  fontFamily : Option String := none
  fontSize : Option StrNum := none
  fontWeight : Option StrNum := none
deriving DecidableEq

/-- Caller-supplied props (`LpWatermarkProps` interface): every field optional. -/
structure WatermarkProps where
  width : Option ℚ := none
  height : Option ℚ := none
  text : Option String := none
  textStyle : Option TextStyleProps := none
  image : Option String := none
  zIndex : Option ℚ := none
  rotate : Option ℚ := none
  gap : Option (ℚ × ℚ) := none
  offset : Option (ℚ × ℚ) := none
deriving DecidableEq

/-- `defaultOptions` from the source (lines 58-70). -/
def defaultOptions : WatermarkProps where
  width := some 120
  height := some 64
  textStyle := some
    { fontSize := some (.str "16px")
      color := some "rgba(0, 0, 0, 0.15)"
      fontFamily := some "sans-serif"
      fontWeight := some (.str "normal") }
  rotate := some (-22)
  zIndex := some 9
  gap := some (100, 100)

/-- A fully resolved `textStyle` after the deep merge with the defaults. -/
structure TextStyle where
  color : String
  fontFamily : String
  fontSize : StrNum
  fontWeight : StrNum
deriving DecidableEq

/-- The options object after `merge({}, defaultOptions, props)`.  Fields with
a default are always present; `text`, `image` and `offset` have no default
and stay optional (the `as Required<LpWatermarkProps>` cast in the source is
only a type assertion, not a runtime guarantee). -/
structure MergedOptions where
  width : ℚ
  height : ℚ
  text : Option String
  textStyle : TextStyle
  image : Option String
  zIndex : ℚ
  rotate : ℚ
  gap : ℚ × ℚ
  offset : Option (ℚ × ℚ)
deriving DecidableEq

/-- Lodash `merge({}, defaultOptions, props)`: a later defined field wins,
and `textStyle` is merged field-wise (deep merge), so a partial `textStyle`
override does not erase the defaulted sub-fields. -/
def mergeOptions (props : WatermarkProps) : MergedOptions where
  width := props.width.getD 120
  height := props.height.getD 64
  text := props.text
  textStyle :=
    { color := ((props.textStyle.bind (·.color)).getD "rgba(0, 0, 0, 0.15)")
      fontFamily := ((props.textStyle.bind (·.fontFamily)).getD "sans-serif")
      fontSize := ((props.textStyle.bind (·.fontSize)).getD (.str "16px"))
      fontWeight := ((props.textStyle.bind (·.fontWeight)).getD (.str "normal")) }
  image := props.image
  zIndex := props.zIndex.getD 9
  rotate := props.rotate.getD (-22)
  gap := props.gap.getD (100, 100)
  offset := props.offset

/-- Result of `ctx.measureText`. -/
structure TextMetrics where
  width : ℚ
  fontBoundingBoxAscent : ℚ
  fontBoundingBoxDescent : ℚ
deriving DecidableEq

/-- Intrinsic size of a successfully loaded `Image`. -/
structure ImgSize where
  width : ℚ
  height : ℚ
deriving DecidableEq

/-- Drawing commands issued on the 2D context (the ones the component uses). -/
inductive CanvasOp where
  | translate (x y : ℚ)
  | scale (x y : ℚ)
  | rotate (angle : ℚ)
  | fillText (text : String) (x y maxWidth : ℚ)
  | drawImg (src : String) (x y w h : ℚ)
deriving DecidableEq

/-- State of the off-screen `<canvas>` element plus its 2D context. -/
structure Canvas where
  widthAttr : String := ""
  heightAttr : String := ""
  styleWidth : String := ""
  styleHeight : String := ""
  font : String := ""
  fillStyle : String := ""
  textBaseline : String := ""
  ops : List CanvasOp := []
deriving DecidableEq

/-- The freshly created canvas of each `getCanvasData` call. -/
def canvas0 : Canvas := {}

/-- The ambient browser environment the component reads from. -/
structure Env where
  devicePixelRatio : ℚ
  pi : ℚ
  sin : ℚ → ℚ
  cos : ℚ → ℚ
  parseFloat : String → ℚ
  measureText : String → String → TextMetrics
  loadImage : String → Option ImgSize
  toDataURL : Canvas → String

/-- Rendering of a JS number into a template literal (integer-valued
rationals print without a denominator, matching the examples the claims
use). -/
def jsShow (q : ℚ) : String :=
  if q.den = 1 then toString q.num else toString q.num ++ "/" ++ toString q.den

/-- The source helper `toNum`: identity on numbers, `parseFloat` on strings. -/
def toNum (env : Env) (value : StrNum) : ℚ :=
  match value with
  | .num q => q
  | .str s => env.parseFloat s

/-- Interpolation of a `number | string` value into a template literal. -/
def strNumShow (v : StrNum) : String :=
  match v with
  | .num q => jsShow q
  | .str s => s

/-- JS `a || b` on numbers: `0` is the only falsy `ℚ`. -/
def jsOr (a b : ℚ) : ℚ := if a = 0 then b else a

/-- JS truthiness of the `image` option (`undefined` and `""` are falsy). -/
def imageTruthy : Option String → Bool
  | some s => s ≠ ""
  | none => false

/-- JS string coercion of a possibly-`undefined` string (e.g. `text` when the
caller supplied none: `measureText`/`fillText` coerce `undefined` to the
string `"undefined"`). -/
def jsStr : Option String → String
  | some s => s
  | none => "undefined"

/-- `Math.ceil`, returned as a rational. -/
def ceilQ (q : ℚ) : ℚ := (⌈q⌉ : ℤ)

/-- The inner `configCanvas` closure (lines 82-103): size the backing store
by the device pixel ratio, size the CSS box without it, move the origin to
the canvas centre, apply the DPR scale, then the rotation. -/
def configCanvas (env : Env) (gap : ℚ × ℚ) (rotate : ℚ)
    (width height : ℚ) (c : Canvas) : Canvas :=
  let ratio := env.devicePixelRatio
  let canvasWidth := gap.1 + width
  let canvasHeight := gap.2 + height
  let rotateAngle := rotate * env.pi / 180
  { c with
    widthAttr := jsShow (canvasWidth * ratio) ++ "px"
    heightAttr := jsShow (canvasHeight * ratio) ++ "px"
    styleWidth := jsShow canvasWidth ++ "px"
    styleHeight := jsShow canvasHeight ++ "px"
    ops := c.ops ++
      [ .translate (canvasWidth * ratio / 2) (canvasHeight * ratio / 2),
        .scale ratio ratio,
        .rotate rotateAngle ] }

/-- What `getCanvasData` resolves with: `{ base64Url, width, height }`. -/
structure CanvasResult where
  base64Url : String
  width : ℚ
  height : ℚ
deriving DecidableEq

/-- The measured text width of `drawText` (`ctx.measureText(text).width`)
under the font string the source builds. -/
def measuredOf (env : Env) (opts : MergedOptions) : TextMetrics :=
  let font := strNumShow opts.textStyle.fontWeight ++ " " ++
    jsShow (toNum env opts.textStyle.fontSize) ++ "px " ++ opts.textStyle.fontFamily
  env.measureText font (jsStr opts.text)

/-- The `_textWidth` bound of `drawText` (line 115): the rotated bounding box
width `ceil(|sin(angle)*textHeight| + |cos(angle)*textWidth|)`. -/
def rotatedBoundW (env : Env) (opts : MergedOptions) : ℚ :=
  let m := measuredOf env opts
  let angle := opts.rotate * env.pi / 180
  let textHeight := m.fontBoundingBoxAscent + m.fontBoundingBoxDescent
  ceilQ (|env.sin angle * textHeight| + |env.cos angle * m.width|)

/-- The `_textHeight` bound of `drawText` (line 119): the rotated bounding
box height `ceil(|sin(angle)*textWidth| + |textHeight*cos(angle)|)`. -/
def rotatedBoundH (env : Env) (opts : MergedOptions) : ℚ :=
  let m := measuredOf env opts
  let angle := opts.rotate * env.pi / 180
  let textHeight := m.fontBoundingBoxAscent + m.fontBoundingBoxDescent
  ceilQ (|env.sin angle * m.width| + |textHeight * env.cos angle|)

/-- The inner `drawText` closure (lines 105-141), run on canvas `c`:
returns the final canvas state together with the resolved result. -/
def drawTextRun (env : Env) (opts : MergedOptions) (c : Canvas) :
    Canvas × CanvasResult :=
  let font := strNumShow opts.textStyle.fontWeight ++ " " ++
    jsShow (toNum env opts.textStyle.fontSize) ++ "px " ++ opts.textStyle.fontFamily
  let c1 : Canvas := { c with font := font }
  let m := env.measureText font (jsStr opts.text)
  let angle := opts.rotate * env.pi / 180
  let textHeight := m.fontBoundingBoxAscent + m.fontBoundingBoxDescent
  let tw := ceilQ (|env.sin angle * textHeight| + |env.cos angle * m.width|)
  let th := ceilQ (|env.sin angle * m.width| + |textHeight * env.cos angle|)
  let width := jsOr opts.width tw
  let height := jsOr opts.height th
  let c2 := configCanvas env opts.gap opts.rotate width height c1
  let c3 : Canvas :=
    { c2 with
      font := font
      fillStyle := opts.textStyle.color
      textBaseline := "top"
      ops := c2.ops ++
        [ .fillText (jsStr opts.text) (-tw / 2) (-(jsOr opts.height th) / 2)
            (jsOr opts.width tw) ] }
  (c3, { base64Url := env.toDataURL c3, width := width, height := height })

/-- The inner `drawImage` closure (lines 143-170), run on canvas `c`.
`none` models the promise never resolving: the `onerror` handler (line 165)
calls `drawText()` for its side effects but never calls `resolve`, so the
promise returned by `drawImage` stays pending forever. -/
def drawImageRun (env : Env) (opts : MergedOptions) (c : Canvas) :
    Option (Canvas × CanvasResult) :=
  match env.loadImage (jsStr opts.image) with
  | some img =>
    let w0 := opts.width
    let h0 := opts.height
    let width := if w0 = 0 ∨ h0 = 0 then
        (if w0 ≠ 0 then w0 else img.width / img.height * h0) else w0
    let height := if w0 = 0 ∨ h0 = 0 then
        (if w0 ≠ 0 then img.height / img.width * w0 else h0) else h0
    let c2 := configCanvas env opts.gap opts.rotate width height c
    let c3 : Canvas :=
      { c2 with ops := c2.ops ++
          [ .drawImg (jsStr opts.image) (-width / 2) (-height / 2) width height ] }
    some (c3, { base64Url := env.toDataURL c3, width := width, height := height })
  | none => none

/-- `getCanvasData` (lines 76-172): image mode when `image` is truthy, else
text mode.  `none` means the returned promise never settles (image error
path). -/
def getCanvasData (env : Env) (opts : MergedOptions) : Option CanvasResult :=
  if imageTruthy opts.image then (drawImageRun env opts canvas0).map (·.2)
  else some (drawTextRun env opts canvas0).2

/-- The `offsetLeft` / `offsetTop` computation of `drawWatermark`
(lines 186-187): `offset?.[0] || 0 + "px"`.  By JS precedence this parses
as `offset?.[0] || (0 + "px")`: a present, nonzero offset component is kept
as a bare number (no `px` unit); only a missing or zero component becomes
the string `"0px"`. -/
def offsetPx (component : Option ℚ) : String :=
  match component with
  | some x => if x = 0 then "0px" else jsShow x
  | none => "0px"

/-- The `wmStyle` template literal (lines 188-201), reproduced verbatim
including its indentation. -/
def wmStyleTemplate (offsetLeft offsetTop : String) (zIndex : ℚ)
    (bgW bgH : ℚ) (base64Url : String) : String :=
  "\n      width:calc(100% - " ++ offsetLeft ++ ");" ++
  "\n      height:calc(100% - " ++ offsetTop ++ ");" ++
  "\n      position:absolute;" ++
  "\n      top:" ++ offsetTop ++ ";" ++
  "\n      left:" ++ offsetLeft ++ ";" ++
  "\n      bottom:0;" ++
  "\n      right:0;" ++
  "\n      pointer-events: none;" ++
  "\n      z-index:" ++ jsShow zIndex ++ ";" ++
  "\n      background-position: 0 0;" ++
  "\n      background-size:" ++ jsShow bgW ++ "px " ++ jsShow bgH ++ "px;" ++
  "\n      background-repeat: repeat;" ++
  "\n      background-image:url(" ++ base64Url ++ ")"

/-- The inline style `drawWatermark` gives the overlay node, as a function
of the options and the resolved canvas data. -/
def overlayStyle (opts : MergedOptions) (r : CanvasResult) : String :=
  wmStyleTemplate (offsetPx (opts.offset.map (·.1)))
    (offsetPx (opts.offset.map (·.2))) opts.zIndex
    (opts.gap.1 + r.width) (opts.gap.2 + r.height) r.base64Url

/-- A DOM element in the container: an identity (creation order) plus its
inline `style` attribute. -/
structure DomNode where
  id : Nat
  style : String
deriving DecidableEq

/-- One `MutationObserver` instance created by `drawWatermark`: the
watermark node its callback closed over, and whether it is still observing
(`disconnect` not yet called on it). -/
structure ObserverRec where
  wmId : Nat
  active : Bool
deriving DecidableEq

/-- The component state `drawWatermark` mutates: the container children,
the container `position` style, every observer created so far (with its
active flag), the index `mutationObserver.current` points at, and a
fresh-id counter for `document.createElement`. -/
structure RenderState where
  children : List DomNode
  posRelative : Bool
  observers : List ObserverRec
  current : Option Nat
  nextId : Nat
deriving DecidableEq

/-- State before the first render: empty container (children of `props` are
irrelevant to the watermark logic), no observer. -/
def initState : RenderState :=
  { children := [], posRelative := false, observers := [], current := none,
    nextId := 0 }

/-- `mutationObserver.current?.disconnect()`: deactivate the observer at
index `i`, leaving every other observer untouched. -/
def disconnectAt : List ObserverRec → Nat → List ObserverRec
  | [], _ => []
  | o :: rest, 0 => { o with active := false } :: rest
  | o :: rest, i + 1 => o :: disconnectAt rest i

/-- One complete run of `drawWatermark` (lines 183-235).  If
`getCanvasData` never resolves (image error path) the `await` on line 184
never completes and nothing after it runs; otherwise the run appends a
fresh overlay div styled by `wmStyle`, forces the container position to
`relative`, disconnects the observer `mutationObserver.current` refers to,
and arms a brand-new observer closed over the new div. -/
def renderApply (env : Env) (opts : MergedOptions) (s : RenderState) :
    RenderState :=
  match getCanvasData env opts with
  | none => s
  | some r =>
    let node : DomNode := { id := s.nextId, style := overlayStyle opts r }
    let obs1 := match s.current with
      | some i => disconnectAt s.observers i
      | none => s.observers
    { children := s.children ++ [node]
      posRelative := true
      observers := obs1 ++ [{ wmId := node.id, active := true }]
      current := some obs1.length
      nextId := s.nextId + 1 }

/-- Target of a mutation record: the container itself or one of its
descendant nodes. -/
inductive Target where
  | container
  | node (id : Nat)
deriving DecidableEq

/-- Kind of a `MutationRecord`. -/
inductive MType where
  | attributes
  | childList
  | characterData
deriving DecidableEq

/-- A `MutationRecord` as the callback consumes it. -/
structure MutationRecord where
  type : MType
  target : Target
  removedNodes : List Nat
  addedNodes : List Nat
deriving DecidableEq

/-- The tamper classifier inside the observer callback (lines 210-224):
some record either removed the watermark div, or is an attribute mutation
targeting it.  The `flag` threading mirrors the source: the removed-nodes
scan runs only under the `removedNodes.length` guard, and the attributes
check overwrites `flag` with `true` when it matches. -/
def isChanged (wm : Nat) (mutations : List MutationRecord) : Bool :=
  mutations.any fun mutation =>
    let flag := false
    let flag := if mutation.removedNodes.length ≠ 0 then
        mutation.removedNodes.any (fun node => node = wm) else flag
    let flag := if mutation.type = MType.attributes ∧
        mutation.target = Target.node wm then true else flag
    flag

/-- Delivery of one mutation batch to the observer closed over watermark
`wm`: if classified as tampered, `drawWatermark()` runs once (second
component counts the `drawWatermark` invocations). -/
def fireObserver (env : Env) (opts : MergedOptions) (wm : Nat)
    (mutations : List MutationRecord) (s : RenderState) :
    RenderState × Nat :=
  if isChanged wm mutations then (renderApply env opts s, 1) else (s, 0)

/-- The mutation records the DOM generates for a completed render run:
`container.append(watermarkDiv)` is a childList record that only adds the
new div, and `container.style.position = "relative"` is an attribute record
targeting the container. -/
def renderMutationRecords (newId : Nat) : List MutationRecord :=
  [ { type := .childList, target := .container, removedNodes := [],
      addedNodes := [newId] },
    { type := .attributes, target := .container, removedNodes := [],
      addedNodes := [] } ]

/-- An event in an execution of the component: a (completed or hung)
`drawWatermark` run, or an external mutation of the container children
(tampering); external code never touches the renderer-owned observers. -/
inductive Step where
  | render
  | tamper (f : List DomNode → List DomNode)

/-- Apply one step. -/
def stepApply (env : Env) (opts : MergedOptions) (s : RenderState) :
    Step → RenderState
  | .render => renderApply env opts s
  | .tamper f => { s with children := f s.children }

/-- Run a trace of steps from a state. -/
def run (env : Env) (opts : MergedOptions) (s : RenderState)
    (steps : List Step) : RenderState :=
  steps.foldl (stepApply env opts) s

/-- A record whose only effect is the removal of node `id` from the
container (what `container.removeChild` generates). -/
def removalRecord (id : Nat) : MutationRecord :=
  { type := .childList, target := .container, removedNodes := [id],
    addedNodes := [] }

/-- An attribute-mutation record targeting `t`. -/
def attrRecord (t : Target) : MutationRecord :=
  { type := .attributes, target := t, removedNodes := [], addedNodes := [] }

/-! Concrete environments and props used by counterexamples and witnesses. -/

/-- A concrete browser environment: DPR 2, text always measured 300 wide
with ascent 10 / descent 4, every image URL failing to load. -/
def envA : Env where
  devicePixelRatio := 2
  pi := 3
  sin := fun _ => 0
  cos := fun _ => 1
  parseFloat := fun _ => 16
  measureText := fun _ _ =>
    { width := 300, fontBoundingBoxAscent := 10, fontBoundingBoxDescent := 4 }
  loadImage := fun _ => none
  toDataURL := fun _ => "data:image/png;base64,AAAA"

/-- Like `envA`, but every image URL loads with intrinsic size 100 x 50. -/
def envB : Env :=
  { envA with loadImage := fun _ => some { width := 100, height := 50 } }

/-- Caller props: text only, rotation 0, no width/height. -/
def props3 : WatermarkProps := { text := some "HELLO", rotate := some 0 }

/-- Caller props: like `props3` but width/height explicitly `0` (the only
falsy number), the one way to reach the rotated-bounds fallback. -/
def props3z : WatermarkProps :=
  { text := some "HELLO", rotate := some 0, width := some 0, height := some 0 }

/-- Caller props: an image URL and only a width. -/
def props4 : WatermarkProps := { image := some "img.png", width := some 200 }

/-- Caller props: an image URL, a width, and height explicitly `0`. -/
def props4z : WatermarkProps :=
  { image := some "img.png", width := some 200, height := some 0 }

/-- Caller props of the spec example: text `"CONFIDENTIAL"`, gap 50/50,
rotation 0. -/
def props8 : WatermarkProps :=
  { text := some "CONFIDENTIAL", gap := some (50, 50), rotate := some 0 }

/-- Caller props: a watermark with an image URL that will fail to load. -/
def propsC1 : WatermarkProps :=
  { text := some "hello", image := some "https://bad.example/x.png" }

/-- Caller props: text mode with a positive pixel offset `[50, 50]`. -/
def propsC5 : WatermarkProps := { text := some "X", offset := some (50, 50) }

/-! ## Claim theorems -/

/-- C1: the claim is right about the intent but the code is wrong.  With a
non-empty image URL whose load fails (`envA.loadImage` always errors), the
`onerror` handler (line 165) runs `drawText()` but never calls `resolve`,
so the promise returned by `drawImage` stays pending forever, the `await`
on line 184 never completes, and no overlay is ever appended: the render
does NOT fall back to a completed text-mode render.  This theorem evaluates
the code at the failing input: `getCanvasData` never settles and a
`drawWatermark` run leaves the container untouched — even though the text
fallback tile the claim expects is perfectly computable from the very same
options (last conjunct). -/
theorem image_error_hangs_render :
    imageTruthy (mergeOptions propsC1).image = true ∧
    getCanvasData envA (mergeOptions propsC1) = none ∧
    renderApply envA (mergeOptions propsC1) initState = initState ∧
    (renderApply envA (mergeOptions propsC1) initState).children = [] ∧
    (drawTextRun envA (mergeOptions propsC1) canvas0).2.width = 120 := by
  refine ⟨?_, ?_, ?_, ?_, ?_⟩
  · simp +decide [imageTruthy, mergeOptions, propsC1]
  · simp +decide [getCanvasData, imageTruthy, mergeOptions, propsC1,
      drawImageRun, envA, jsStr]
  · simp +decide [renderApply, getCanvasData, imageTruthy, mergeOptions,
      propsC1, drawImageRun, envA, jsStr]
  · simp +decide [renderApply, getCanvasData, imageTruthy, mergeOptions,
      propsC1, drawImageRun, envA, jsStr, initState]
  · norm_num [drawTextRun, mergeOptions, propsC1, envA, jsOr, ceilQ, jsStr,
      canvas0]

set_option maxRecDepth 100000 in
/-- C5: the claim is right about the intent but the code is wrong.  With
offset `[50, 50]`, JS precedence parses `offset?.[0] || 0 + "px"` (lines
186-187) as `offset?.[0] || (0 + "px")`, so a nonzero offset component is
interpolated as the bare number `50`, not the pixel length `50px`: the
emitted inline style reads `top:50`, `left:50`, `width:calc(100% - 50)`,
`height:calc(100% - 50)` — unitless, invalid CSS lengths — instead of the
`50px` forms the claim (and the spec's "pixel offset") requires.  The
remaining properties (position absolute, pointer-events none, z-index 9,
background-repeat repeat, background-size 220px 164px) do come out as
claimed. -/
theorem offset_loses_px_unit :
    offsetPx (some 50) = "50" ∧
    offsetPx (some 50) ≠ "50px" ∧
    (getCanvasData envA (mergeOptions propsC5)).map
        (overlayStyle (mergeOptions propsC5)) = some
      ("\n      width:calc(100% - 50);" ++
       "\n      height:calc(100% - 50);" ++
       "\n      position:absolute;" ++
       "\n      top:50;" ++
       "\n      left:50;" ++
       "\n      bottom:0;" ++
       "\n      right:0;" ++
       "\n      pointer-events: none;" ++
       "\n      z-index:9;" ++
       "\n      background-position: 0 0;" ++
       "\n      background-size:220px 164px;" ++
       "\n      background-repeat: repeat;" ++
       "\n      background-image:url(data:image/png;base64,AAAA)") := by
  refine ⟨?_, ?_, ?_⟩
  · norm_num [offsetPx, jsShow]
    rfl
  · intro h
    have h2 : offsetPx (some 50) = "50" := by
      norm_num [offsetPx, jsShow]
      rfl
    rw [h2] at h
    exact absurd h (by decide)
  · norm_num [getCanvasData, imageTruthy, mergeOptions, propsC5, envA,
      drawTextRun, jsOr, canvas0, jsStr, ceilQ, overlayStyle, offsetPx,
      jsShow, wmStyleTemplate]
    rfl

/-- C3 counterexample: with caller props supplying no width and no height
(`props3`: text `"HELLO"`, rotation 0) in an environment measuring the text
300 wide with ascent 10 and descent 4, the rotated bounding box is
300 x 14, but the effective tile is 120 x 64: the deep-merged defaults
`width: 120, height: 64` are always truthy, so `options.width ||
_textWidth` (line 124) never falls through to the computed bounds when the
caller merely omits width/height. -/
theorem text_bounds_counterexample :
    (getCanvasData envA (mergeOptions props3)).map
        (fun r => (r.width, r.height)) = some (120, 64) ∧
    rotatedBoundW envA (mergeOptions props3) = 300 ∧
    rotatedBoundH envA (mergeOptions props3) = 14 ∧
    (120 : ℚ) ≠ 300 := by
  refine ⟨?_, ?_, ?_, ?_⟩
  · norm_num [getCanvasData, imageTruthy, mergeOptions, props3, drawTextRun,
      jsOr, canvas0, envA, jsStr, ceilQ]
  · norm_num [rotatedBoundW, measuredOf, mergeOptions, props3, envA, ceilQ]
  · norm_num [rotatedBoundH, measuredOf, mergeOptions, props3, envA, ceilQ]
  · norm_num

/-- C3 as amended: in text mode the effective tile width (resp. height) is
the merged `options.width` (`options.height`) whenever that value is
nonzero — in particular the defaults 120 x 64 when the caller omits both —
and equals the rotated bounding box `ceil(|sin(angle)*textHeight| +
|cos(angle)*textWidth|)` (resp. `ceil(|sin(angle)*textWidth| +
|cos(angle)*textHeight|)`) exactly when the merged value is `0`, the only
falsy number a caller can pass. -/
theorem text_bounds_amended (env : Env) (props : WatermarkProps)
    (himg : imageTruthy props.image = false) :
    ∃ r, getCanvasData env (mergeOptions props) = some r ∧
      r.width = jsOr (mergeOptions props).width
        (rotatedBoundW env (mergeOptions props)) ∧
      r.height = jsOr (mergeOptions props).height
        (rotatedBoundH env (mergeOptions props)) ∧
      (props.width = none → props.height = none →
        r.width = 120 ∧ r.height = 64) ∧
      (props.width = some 0 →
        r.width = rotatedBoundW env (mergeOptions props)) ∧
      (props.height = some 0 →
        r.height = rotatedBoundH env (mergeOptions props)) := by
  have himg2 : imageTruthy (mergeOptions props).image = false := himg
  refine ⟨(drawTextRun env (mergeOptions props) canvas0).2, ?_, rfl, rfl,
    ?_, ?_, ?_⟩
  · rw [getCanvasData, himg2]
    simp
  · intro hw hh
    simp [drawTextRun, mergeOptions, hw, hh, jsOr]
  · intro hw
    simp [drawTextRun, mergeOptions, hw, jsOr, rotatedBoundW, measuredOf]
  · intro hh
    simp [drawTextRun, mergeOptions, hh, jsOr, rotatedBoundH, measuredOf]

/-- Witness for the C3 amended theorem at `envA` / `props3`. -/
theorem text_bounds_amended_witness :
    imageTruthy props3.image = false ∧
    ∃ r, getCanvasData envA (mergeOptions props3) = some r ∧
      r.width = jsOr (mergeOptions props3).width
        (rotatedBoundW envA (mergeOptions props3)) ∧
      r.height = jsOr (mergeOptions props3).height
        (rotatedBoundH envA (mergeOptions props3)) ∧
      (props3.width = none → props3.height = none →
        r.width = 120 ∧ r.height = 64) ∧
      (props3.width = some 0 →
        r.width = rotatedBoundW envA (mergeOptions props3)) ∧
      (props3.height = some 0 →
        r.height = rotatedBoundH envA (mergeOptions props3)) :=
  ⟨rfl, text_bounds_amended envA props3 rfl⟩

/-- C4 counterexample: with an image that loads at intrinsic size 100 x 50
(`envB`) and caller props supplying only `width: 200` (`props4`), the claim
demands `height = 50/100 * 200 = 100`, but the effective tile is 200 x 64:
the deep-merged default `height: 64` is truthy, so the guard
`if (!width || !height)` (line 153) is never entered and the aspect ratio
is not preserved. -/
theorem image_aspect_counterexample :
    (getCanvasData envB (mergeOptions props4)).map
        (fun r => (r.width, r.height)) = some (200, 64) ∧
    ((50 : ℚ) / 100) * 200 = 100 ∧
    (64 : ℚ) ≠ 100 := by
  refine ⟨?_, ?_, ?_⟩
  · norm_num [getCanvasData, imageTruthy, mergeOptions, props4, drawImageRun,
      jsOr, canvas0, envB, envA, jsStr, ceilQ]
    simp +decide
  · norm_num
  · norm_num

/-- C4 as amended: in image mode, when the image loads at a nonzero
intrinsic size and at least one of the merged width/height is `0` (the only
falsy number a caller can pass; a merely omitted dimension is filled by the
defaults 120/64 and the branch is skipped), the zero dimension is computed
from the supplied one by the image's aspect ratio — `height =
img.height/img.width * width` when width is nonzero, else `width =
img.width/img.height * height` — and the resulting tile satisfies
`width * img.height = height * img.width` exactly. -/
theorem image_aspect_amended (env : Env) (opts : MergedOptions) (u : String)
    (img : ImgSize) (himg : opts.image = some u) (hu : u ≠ "")
    (hload : env.loadImage u = some img)
    (hiw : img.width ≠ 0) (hih : img.height ≠ 0)
    (hone : opts.width = 0 ∨ opts.height = 0) :
    ∃ r, getCanvasData env opts = some r ∧
      r.width = (if opts.width ≠ 0 then opts.width
        else img.width / img.height * opts.height) ∧
      r.height = (if opts.width ≠ 0 then img.height / img.width * opts.width
        else opts.height) ∧
      r.width * img.height = r.height * img.width := by
  have htruthy : imageTruthy opts.image = true := by
    rw [himg]; simpa [imageTruthy] using hu
  have hstr : jsStr opts.image = u := by rw [himg]; rfl
  rw [getCanvasData, htruthy]
  simp only [if_pos rfl, drawImageRun, hstr, hload, if_pos hone]
  refine ⟨_, rfl, rfl, rfl, ?_⟩
  by_cases hw : opts.width ≠ 0
  · simp only [if_pos hw]
    field_simp
    ring
  · simp only [if_neg hw]
    field_simp
    ring

/-- Witness for the C4 amended theorem at `envB` / `props4z` (width 200,
height explicitly 0, image 100 x 50: the tile comes out 200 x 100). -/
theorem image_aspect_amended_witness :
    (mergeOptions props4z).image = some "img.png" ∧
    "img.png" ≠ "" ∧
    envB.loadImage "img.png" = some { width := 100, height := 50 } ∧
    ((100 : ℚ) ≠ 0) ∧ ((50 : ℚ) ≠ 0) ∧
    ((mergeOptions props4z).width = 0 ∨ (mergeOptions props4z).height = 0) ∧
    ∃ r, getCanvasData envB (mergeOptions props4z) = some r ∧
      r.width = (if (mergeOptions props4z).width ≠ 0 then
        (mergeOptions props4z).width
        else (100 : ℚ) / 50 * (mergeOptions props4z).height) ∧
      r.height = (if (mergeOptions props4z).width ≠ 0 then
        (50 : ℚ) / 100 * (mergeOptions props4z).width
        else (mergeOptions props4z).height) ∧
      r.width * 50 = r.height * 100 :=
  ⟨rfl, by decide, rfl, by norm_num, by norm_num, Or.inr rfl,
    image_aspect_amended envB (mergeOptions props4z) "img.png"
      { width := 100, height := 50 } rfl (by decide) rfl
      (by norm_num) (by norm_num) (Or.inr rfl)⟩

/-- The concrete canvas result of a text render under `envA` (every
`toDataURL` in `envA` returns the same constant data URL). -/
def rA : CanvasResult :=
  { base64Url := "data:image/png;base64,AAAA", width := 120, height := 64 }

/-- Evaluation fact shared by the concrete witnesses below: under `envA`,
the merged `props3` options render to the tile `rA`. -/
theorem getCanvasData_envA_props3 :
    getCanvasData envA (mergeOptions props3) = some rA := by
  norm_num [getCanvasData, imageTruthy, mergeOptions, props3, drawTextRun,
    jsOr, canvas0, envA, jsStr, ceilQ, rA]

/-- C7: a completed run of `drawWatermark` appends exactly one freshly
created overlay div (id `s.nextId`, style from `wmStyle`) as the last child
of the container, sets the container position to `relative`, keeps every
previously existing child in place, and the appended node is not any prior
node (ids of existing children are strictly below the fresh counter), so
overlay nodes accumulate across re-renders. -/
theorem render_appends_fresh_overlay (env : Env) (opts : MergedOptions)
    (s : RenderState) (r : CanvasResult)
    (hr : getCanvasData env opts = some r)
    (hfresh : ∀ n ∈ s.children, n.id < s.nextId) :
    (renderApply env opts s).children =
      s.children ++ [{ id := s.nextId, style := overlayStyle opts r }] ∧
    (renderApply env opts s).posRelative = true ∧
    (∀ n ∈ s.children, n ∈ (renderApply env opts s).children) ∧
    ({ id := s.nextId, style := overlayStyle opts r } : DomNode) ∉
      s.children := by
  refine ⟨?_, ?_, ?_, ?_⟩
  · simp [renderApply, hr]
  · simp [renderApply, hr]
  · intro n hn
    simp only [renderApply, hr, List.mem_append]
    exact Or.inl hn
  · intro hmem
    exact absurd (hfresh _ hmem) (lt_irrefl s.nextId)

/-- Witness for C7 at `envA` / `props3` / the initial (empty) container. -/
theorem render_appends_fresh_overlay_witness :
    getCanvasData envA (mergeOptions props3) = some rA ∧
    (∀ n ∈ initState.children, n.id < initState.nextId) ∧
    (renderApply envA (mergeOptions props3) initState).children =
      initState.children ++
        [{ id := initState.nextId,
           style := overlayStyle (mergeOptions props3) rA }] :=
  ⟨getCanvasData_envA_props3, fun n hn => absurd hn (by simp [initState]),
    (render_appends_fresh_overlay envA (mergeOptions props3) initState rA
      getCanvasData_envA_props3
      (fun n hn => absurd hn (by simp [initState]))).1⟩

/-- C9: the rendered output content is a deterministic function of the
options and environment.  Two consecutive completed `drawWatermark` runs
over an untouched container append two overlay nodes with identical inline
style strings (and hence identical background images, the data URL being
part of the style), even though the nodes themselves are distinct (fresh
ids). -/
theorem render_output_deterministic (env : Env) (opts : MergedOptions)
    (s : RenderState) (r : CanvasResult)
    (hr : getCanvasData env opts = some r) :
    ∃ n1 n2 : DomNode,
      (renderApply env opts s).children = s.children ++ [n1] ∧
      (renderApply env opts (renderApply env opts s)).children =
        s.children ++ [n1, n2] ∧
      n1.style = n2.style ∧ n1.id ≠ n2.id := by
  refine ⟨{ id := s.nextId, style := overlayStyle opts r },
    { id := s.nextId + 1, style := overlayStyle opts r }, ?_, ?_, rfl, ?_⟩
  · simp [renderApply, hr]
  · simp [renderApply, hr]
  · simp

/-- Witness for C9 at `envA` / `props3` / the initial container. -/
theorem render_output_deterministic_witness :
    getCanvasData envA (mergeOptions props3) = some rA ∧
    ∃ n1 n2 : DomNode,
      (renderApply envA (mergeOptions props3) initState).children =
        initState.children ++ [n1] ∧
      (renderApply envA (mergeOptions props3)
          (renderApply envA (mergeOptions props3) initState)).children =
        initState.children ++ [n1, n2] ∧
      n1.style = n2.style ∧ n1.id ≠ n2.id :=
  ⟨getCanvasData_envA_props3,
    render_output_deterministic envA (mergeOptions props3) initState rA
      getCanvasData_envA_props3⟩

/-- C10: the mutation records generated by a render run itself — the
childList record of `container.append(watermarkDiv)` (which only *adds* the
new div) and the attribute record of `container.style.position =
"relative"` (whose target is the container, never the overlay) — are never
classified as tamper by the observer callback, whatever watermark node the
callback closed over and whatever node was appended: a completed render
cannot re-trigger itself, so there is no self-sustaining re-render loop
without external tampering. -/
theorem render_own_mutations_not_tamper (wm newId : Nat) :
    isChanged wm (renderMutationRecords newId) = false := by
  simp [isChanged, renderMutationRecords]

/-- C2: the tamper classifier fires exactly on batches containing a record
that removed the overlay node or an attribute record targeting it
(first conjunct, the if-and-only-if over arbitrary batches); delivering the
batch generated by removing the overlay runs `drawWatermark` exactly once
and the run appends a new overlay whose style string is again
`overlayStyle opts r` — the same style the removed overlay was given
(second conjunct); an attribute mutation of an unrelated sibling node, or
its removal, triggers no re-render (last two conjuncts). -/
theorem tamper_classifier_correct (env : Env) (opts : MergedOptions)
    (wm sib : Nat) (r : CanvasResult) (s : RenderState)
    (hr : getCanvasData env opts = some r) (hsib : sib ≠ wm) :
    (∀ mutations, isChanged wm mutations = true ↔
      ∃ m ∈ mutations, wm ∈ m.removedNodes ∨
        (m.type = MType.attributes ∧ m.target = Target.node wm)) ∧
    (fireObserver env opts wm [removalRecord wm] s =
        (renderApply env opts s, 1) ∧
      ∃ n, (renderApply env opts s).children = s.children ++ [n] ∧
        n.style = overlayStyle opts r) ∧
    fireObserver env opts wm [attrRecord (Target.node sib)] s = (s, 0) ∧
    fireObserver env opts wm [removalRecord sib] s = (s, 0) := by
  refine ⟨?_, ⟨?_, ?_⟩, ?_, ?_⟩
  · intro mutations
    simp only [isChanged, List.any_eq_true]
    refine exists_congr fun m => and_congr_right fun _ => ?_
    by_cases h1 : m.type = MType.attributes ∧ m.target = Target.node wm
    · simp [h1]
    · rw [if_neg h1]
      by_cases h2 : m.removedNodes.length ≠ 0
      · rw [if_pos h2]
        simp [List.any_eq_true, h1]
      · rw [if_neg h2]
        push_neg at h2
        rw [List.length_eq_zero] at h2
        simp [h2, h1]
  · simp [fireObserver, isChanged, removalRecord]
  · exact ⟨{ id := s.nextId, style := overlayStyle opts r },
      by simp [renderApply, hr], rfl⟩
  · simp [fireObserver, isChanged, attrRecord, hsib]
  · simp [fireObserver, isChanged, removalRecord, hsib]

/-- Witness for C2 at `envA` / `props3`, watermark node 5, sibling 7:
the sibling attribute mutation triggers no re-render. -/
theorem tamper_classifier_correct_witness :
    getCanvasData envA (mergeOptions props3) = some rA ∧
    (7 : Nat) ≠ 5 ∧
    fireObserver envA (mergeOptions props3) 5
      [attrRecord (Target.node 7)] initState = (initState, 0) :=
  ⟨getCanvasData_envA_props3, by decide,
    (tamper_classifier_correct envA (mergeOptions props3) 5 7 rA initState
      getCanvasData_envA_props3 (by decide)).2.2.1⟩

/-- C8: for the spec example — caller options `text: "CONFIDENTIAL"`,
`gap: [50, 50]`, `rotate: 0` merged with the defaults
`width: 120, height: 64` — in every environment the tile resolves to
120 x 64, the overlay style carries `background-size:170px 114px` (tile
width 120 plus gap 50 by tile height 64 plus gap 50), and the canvas
drawing sequence centres the string: origin translated to the canvas
centre, rotation 0, and `"CONFIDENTIAL"` filled at
`x = -_textWidth/2` (its measured rotated bound centred about the origin)
and `y = -32 = -height/2` with max width 120. -/
theorem confidential_example (env : Env) :
    ∃ r, getCanvasData env (mergeOptions props8) = some r ∧
      r.width = 120 ∧ r.height = 64 ∧
      overlayStyle (mergeOptions props8) r =
        wmStyleTemplate "0px" "0px" 9 170 114 r.base64Url ∧
      (drawTextRun env (mergeOptions props8) canvas0).1.ops =
        [ CanvasOp.translate (170 * env.devicePixelRatio / 2)
            (114 * env.devicePixelRatio / 2),
          CanvasOp.scale env.devicePixelRatio env.devicePixelRatio,
          CanvasOp.rotate 0,
          CanvasOp.fillText "CONFIDENTIAL"
            (-(rotatedBoundW env (mergeOptions props8)) / 2) (-32) 120 ] := by
  refine ⟨(drawTextRun env (mergeOptions props8) canvas0).2, ?_, ?_, ?_,
    ?_, ?_⟩
  · simp [getCanvasData, imageTruthy, mergeOptions, props8]
  · norm_num [drawTextRun, mergeOptions, props8, jsOr]
  · norm_num [drawTextRun, mergeOptions, props8, jsOr]
  · norm_num [overlayStyle, offsetPx, drawTextRun, mergeOptions, props8,
      jsOr, configCanvas]
  · norm_num [drawTextRun, configCanvas, mergeOptions, props8, canvas0,
      jsOr, rotatedBoundW, measuredOf, ceilQ, jsStr]

/-! ## Observer uniqueness (C6) -/

/-- Number of observers currently observing. -/
def activeCount (l : List ObserverRec) : Nat :=
  (l.filter (fun o => o.active)).length

/-- Shape invariant of the renderer-owned observers: either none was ever
created, or the ones created so far are a list of disconnected observers
followed by the single armed one, with `mutationObserver.current` pointing
at it. -/
def ObsInv (s : RenderState) : Prop :=
  (s.observers = [] ∧ s.current = none) ∨
  (∃ pre o, s.observers = pre ++ [o] ∧ o.active = true ∧
    (∀ p ∈ pre, p.active = false) ∧ s.current = some pre.length)

theorem obsInv_init : ObsInv initState := Or.inl ⟨rfl, rfl⟩

theorem disconnectAt_length (l : List ObserverRec) (i : Nat) :
    (disconnectAt l i).length = l.length := by
  induction l generalizing i with
  | nil => rfl
  | cons a t ih =>
    cases i with
    | zero => rfl
    | succ j => simp [disconnectAt, ih]

theorem disconnectAt_append_last (l : List ObserverRec) (x : ObserverRec) :
    disconnectAt (l ++ [x]) l.length = l ++ [{ x with active := false }] := by
  induction l with
  | nil => rfl
  | cons a t ih => simp [disconnectAt, ih]

theorem activeCount_snoc (pre : List ObserverRec) (o : ObserverRec)
    (ho : o.active = true) (hp : ∀ p ∈ pre, p.active = false) :
    activeCount (pre ++ [o]) = 1 := by
  unfold activeCount
  rw [List.filter_append]
  have hnil : pre.filter (fun p => p.active) = [] := by
    rw [List.filter_eq_nil_iff]
    intro p hpmem
    simp [hp p hpmem]
  simp [hnil, ho]

theorem obsInv_step (env : Env) (opts : MergedOptions) (st : Step)
    (s : RenderState) (h : ObsInv s) : ObsInv (stepApply env opts s st) := by
  cases st with
  | tamper f =>
    simpa [stepApply, ObsInv] using h
  | render =>
    rcases hcd : getCanvasData env opts with _ | r
    · simpa [stepApply, renderApply, hcd] using h
    · rcases h with ⟨h1, h2⟩ | ⟨pre, o, h1, h2, h3, h4⟩
      · refine Or.inr ⟨[], { wmId := s.nextId, active := true }, ?_, rfl,
          ?_, ?_⟩
        · simp [stepApply, renderApply, hcd, h1, h2]
        · intro p hp
          simp at hp
        · simp [stepApply, renderApply, hcd, h1, h2]
      · refine Or.inr ⟨pre ++ [{ o with active := false }],
          { wmId := s.nextId, active := true }, ?_, rfl, ?_, ?_⟩
        · simp [stepApply, renderApply, hcd, h4, h1,
            disconnectAt_append_last]
        · intro p hp
          rcases List.mem_append.mp hp with hp | hp
          · exact h3 p hp
          · simp at hp
            simp [hp]
        · simp [stepApply, renderApply, hcd, h4, h1, disconnectAt_length]

theorem obsInv_run (env : Env) (opts : MergedOptions) (steps : List Step) :
    ∀ s : RenderState, ObsInv s → ObsInv (run env opts s steps) := by
  induction steps with
  | nil => exact fun s h => h
  | cons st rest ih =>
    intro s h
    exact ih _ (obsInv_step env opts st s h)

theorem current_isSome_step (env : Env) (opts : MergedOptions) (st : Step)
    (s : RenderState) (h : s.current.isSome = true) :
    (stepApply env opts s st).current.isSome = true := by
  cases st with
  | tamper f => simpa [stepApply] using h
  | render =>
    rcases hcd : getCanvasData env opts with _ | r
    · simpa [stepApply, renderApply, hcd] using h
    · simp [stepApply, renderApply, hcd]

theorem current_isSome_run (env : Env) (opts : MergedOptions)
    (steps : List Step) :
    ∀ s : RenderState, s.current.isSome = true →
      (run env opts s steps).current.isSome = true := by
  induction steps with
  | nil => exact fun s h => h
  | cons st rest ih =>
    intro s h
    exact ih _ (current_isSome_step env opts st s h)

theorem current_isSome_after_render (env : Env) (opts : MergedOptions)
    (steps : List Step) (hc : (getCanvasData env opts).isSome = true) :
    ∀ s : RenderState, Step.render ∈ steps →
      (run env opts s steps).current.isSome = true := by
  induction steps with
  | nil =>
    intro s hmem
    cases hmem
  | cons st rest ih =>
    intro s hmem
    rcases List.mem_cons.mp hmem with heq | hmem2
    · subst heq
      refine current_isSome_run env opts rest _ ?_
      rcases Option.isSome_iff_exists.mp hc with ⟨r, hr⟩
      simp [stepApply, renderApply, hr]
    · exact ih _ hmem2

/-- C6: along every execution trace (any interleaving of `drawWatermark`
runs and external tampering with the container children, starting from the
mounted component), at most one renderer-created `MutationObserver` is
actively observing, and exactly one from the first completed render on:
each run disconnects the observer `mutationObserver.current` refers to
before arming the freshly created one. -/
theorem observer_unique (env : Env) (opts : MergedOptions)
    (steps : List Step) :
    activeCount (run env opts initState steps).observers ≤ 1 ∧
    ((getCanvasData env opts).isSome = true → Step.render ∈ steps →
      activeCount (run env opts initState steps).observers = 1) := by
  have hinv := obsInv_run env opts steps initState obsInv_init
  constructor
  · rcases hinv with ⟨h1, _⟩ | ⟨pre, o, h1, h2, h3, _⟩
    · simp [h1, activeCount]
    · rw [h1, activeCount_snoc pre o h2 h3]
  · intro hc hmem
    have hs := current_isSome_after_render env opts steps hc initState hmem
    rcases hinv with ⟨_, h2⟩ | ⟨pre, o, h1, h2, h3, _⟩
    · rw [h2] at hs
      cases hs
    · rw [h1, activeCount_snoc pre o h2 h3]

/-- Witness for C6: a one-render trace under `envA` / `props3` ends with
exactly one active observer. -/
theorem observer_unique_witness :
    (getCanvasData envA (mergeOptions props3)).isSome = true ∧
    Step.render ∈ [Step.render] ∧
    activeCount
      (run envA (mergeOptions props3) initState [Step.render]).observers
      = 1 :=
  ⟨by rw [getCanvasData_envA_props3]; rfl, List.Mem.head _,
    (observer_unique envA (mergeOptions props3) [Step.render]).2
      (by rw [getCanvasData_envA_props3]; rfl) (List.Mem.head _)⟩

end LpWatermark
